import Mathlib

/-!
Verification of the `clout` pipeline (src/clout/clout.py).

Strings are modelled as `List Char` (Python `str`, one element per code
point, matching Python's `len`/slicing semantics).  Pure helpers of the
script are translated directly; the external collaborators (HTTP fetch,
search API, JSON encoder, spreadsheet library, LLM backend) are modelled
as explicit oracles/state so that the script's control flow around them
can be stated and proved.
-/

set_option maxRecDepth 8000

abbrev Str := List Char

/-- Python's `str.strip()` whitespace set (ASCII part actually exercised
by the script): space, tab, newline, carriage return, vertical tab, form feed. -/
def isPyWs (c : Char) : Bool :=
  c = ' ' || c = '\t' || c = '\n' || c = '\r' || c = '\x0b' || c = '\x0c'

/-- Python `s.strip()`: drop boundary whitespace from both ends. -/
def pyStrip (s : Str) : Str :=
  ((s.dropWhile isPyWs).reverse.dropWhile isPyWs).reverse

/-- `pat` occurs at the very front of `s`. -/
def strStartsWith : Str → Str → Bool
  | [], _ => true
  | _ :: _, [] => false
  | p :: ps, c :: cs => if p = c then strStartsWith ps cs else false

/-- Python `s.split(pat, 1)` for a pattern known to be non-empty, returning
the pieces around the FIRST occurrence of `pat`, or `none` when `pat` does
not occur (`pat in s` is `(splitFirst pat s).isSome`). -/
def splitFirst (pat : Str) : Str → Option (Str × Str)
  | [] => none
  | c :: cs =>
    if strStartsWith pat (c :: cs) then some ([], List.drop pat.length (c :: cs))
    else (splitFirst pat cs).map (fun p => (c :: p.1, p.2))

/-- Python `pat in s` (for non-empty `pat`). -/
def containsSub (pat s : Str) : Bool := (splitFirst pat s).isSome

/-- Worker for `removeAll`: while `skip > 0` we are inside an occurrence
already matched and just drop characters; at `skip = 0` we test for a
fresh occurrence at the current position (left to right, non-overlapping,
exactly Python `s.replace(pat, "")` for non-empty `pat`). -/
def removeAllAux (pat : Str) : Nat → Str → Str
  | _, [] => []
  | skip + 1, _ :: cs => removeAllAux pat skip cs
  | 0, c :: cs =>
    if strStartsWith pat (c :: cs) ∧ 0 < pat.length then
      removeAllAux pat (pat.length - 1) cs
    else
      c :: removeAllAux pat 0 cs

/-- Python `s.replace(pat, "")` for non-empty `pat`. -/
def removeAll (pat s : Str) : Str := removeAllAux pat 0 s

/-- Python `", ".join(xs)`. -/
def commaJoin (xs : List Str) : Str := List.intercalate ", ".data xs

-- -------------------------
-- Generation output parsing (tail of generate_one_variant, lines 196-206)
-- -------------------------

/-- The `{"headline": ..., "body": ...}` dict returned by `generate_one_variant`. -/
structure Post where
  headline : Str
  body : Str
deriving DecidableEq, Repr

def postMarker : Str := "POST:".data

def headlineMarker : Str := "HEADLINE:".data

/-- Lines 196-206 of clout.py: split the accumulated generation output at
the first `"POST:"`; headline is the front part with every `"HEADLINE:"`
removed and then stripped, body is the back part stripped.  Without a
`"POST:"` marker, fall back to the fixed headline and the whole stripped
output as body. -/
def parse_output (full_text : Str) : Post :=
  match splitFirst postMarker full_text with
  | some (head_part, post_part) =>
    { headline := pyStrip (removeAll headlineMarker head_part)
      body := pyStrip post_part }
  | none =>
    { headline := "LinkedIn Post".data
      body := pyStrip full_text }

-- -------------------------
-- Prompt composition (final_trim_prompt, lines 117-121; generate_one_variant, lines 124-171)
-- -------------------------

/-- Template text from the start of the f-string through the text `Variant:` with
its trailing space. -/
def TPL_A : Str :=
  ("\nYou are a senior editorial content strategist who writes high-impact, human, long-form LinkedIn posts.\n\nVariant: ").data

/-- Template text between the variant-label slot and the style-instruction slot. -/
def TPL_B : Str :=
  ("\nStyle Instruction: ").data

/-- Template text between the style-instruction slot and the combined-background slot. -/
def TPL_C : Str :=
  ("\n\nWrite a polished, original, human-sounding LinkedIn post of **700–1000 words** (aim for ~800 words).\nThis must NOT summarize the blog. Instead, it must:\n- Expand on the ideas, frameworks, insights, and themes found in the blog content.\n- Integrate and synthesize insights from BOTH the blog and the SERP-scraped external pages.\n- Show intellectual depth, critical thinking, and editorial expertise.\n- Use **long, flowing, high-quality paragraphs** (5–7 sentences each), not bullet points.\n- Use a **LinkedIn-appropriate tone**: engaging, reflective, and expert — not academic or robotic.\n- Use narrative openings, transitions, and emotional or strategic framing.\n- Offer a clear perspective, interpretation, or actionable direction.\n- Avoid lists unless absolutely necessary; rely on narrative explanation and analysis.\n- DO NOT repeat the same sentence structures or rephrase the blog.\n- DO NOT mention that you\x27re combining sources.\n\nUse this combined text ONLY as background knowledge to enrich arguments, examples, frameworks, and narrative:\n========\n").data

/-- Template text after the combined-background slot to the end of the f-string:
the closing fence followed by the mandatory output-envelope instruction block. -/
def TPL_D : Str :=
  ("\n========\n\nFollow this EXACT output structure — this is mandatory:\n\n###\nHEADLINE:\n<one compelling headline, 5–12 words>\n\nPOST:\n<full LinkedIn post, 700–1000 words, long paragraphs, deeply synthesizing blog + SERP insights>\n###\n\nDo NOT place anything before HEADLINE:\nDo NOT place anything after the final ###.\n").data

/-- The separator right after the combined background inside `TPL_D`
(newline, the closing fence of eight equals signs, blank line). -/
def MID_SEP : Str := ("\n========\n\n").data

/-- Everything of `TPL_D` from the text starting `Follow this EXACT output
structure` onward, i.e. the mandatory output-envelope instruction block. -/
def ENV_PART : Str := List.drop 11 TPL_D

/-- The fixed three-element variant list (lines 49-53): label and style
instruction for each of the three generated posts. -/
def VARIANTS : List (Str × Str) :=
  [ (("Thought Leadership").data,
     ("Write a senior thought-leadership piece: big-picture insights, implications, frameworks.").data),
    (("Story Narrative").data,
     ("Write a story-driven narrative: open with a concise anecdote or scene, then connect to insights.").data),
    (("Actionable / Framework").data,
     ("Write an actionable post with a clear framework or 3–5 tactical steps the reader can apply.").data) ]

/-- Lines 117-121: the last-safety character cap on the composed prompt. -/
def final_trim_prompt (prompt : Str) (max_chars : Nat) : Str :=
  if prompt.length ≤ max_chars then prompt else prompt.take max_chars

/-- Lines 126-129: hard character cuts of the source materials and the
blank-line-separated combination used as background. -/
def mkCombined (blog_text serp_text : Str) : Str :=
  blog_text.take 5000 ++ ("\n\n").data ++ serp_text.take 7000

/-- Lines 124-167: the full composed prompt for one variant, before the final cap. -/
def compose_prompt (variant_label variant_instr blog_text serp_text : Str) : Str :=
  TPL_A ++ variant_label ++ TPL_B ++ variant_instr ++ TPL_C ++
    mkCombined blog_text serp_text ++ TPL_D

-- -------------------------
-- Generation driver (generate_one_variant, lines 173-206)
-- -------------------------

/-- A Python exception raised while iterating the model's token stream.
The script's `except ValueError` clause (line 189) distinguishes
`ValueError` (e.g. llama.cpp token overflow) from every other exception
class, which it does not catch. -/
inductive PyErr where
  | valueError (msg : Str)
  | otherError (msg : Str)
deriving DecidableEq, Repr

/-- One entry of a streamed chunk's `"choices"` list; `text` is its
optional `"text"` field (`choices[0].get("text", "")`, line 186). -/
structure ChunkChoice where
  text : Option Str
deriving DecidableEq, Repr

/-- One streamed chunk.  `choices` is `chunk.get("choices")` when the chunk
is a dict (`none` both for a non-dict chunk and for a missing key, line 184). -/
structure Chunk where
  isDict : Bool
  choices : Option (List ChunkChoice)
deriving DecidableEq, Repr

/-- The outcome of one `llm(prompt, ..., stream=True)` call: the chunks the
iterator yielded, and the exception that ended the iteration early, if any. -/
structure StreamOutcome where
  chunks : List Chunk
  err : Option PyErr
deriving DecidableEq, Repr

/-- Lines 183-188: the text a single chunk contributes to `full_text`.
Non-dict chunks and chunks whose `"choices"` is missing or an empty list
(falsy) contribute nothing; otherwise `choices[0].get("text", "")`. -/
def chunkToken (ch : Chunk) : Str :=
  if ch.isDict then
    match ch.choices with
    | some (c0 :: _) => c0.text.getD []
    | _ => []
  else []

/-- The accumulated `full_text` over all yielded chunks (line 187). -/
def accumTokens (cs : List Chunk) : Str := (cs.map chunkToken).flatten

/-- Lines 173-206 of `generate_one_variant` after the prompt is built:
consume the stream; a `ValueError` yields the sentinel
`{"headline": "ERROR", "body": ""}` (lines 189-192), any other exception
propagates, and a completed stream is parsed by `parse_output`. -/
def generate_one_variant (outcome : StreamOutcome) : Except PyErr Post :=
  match outcome.err with
  | some (PyErr.valueError _) => Except.ok { headline := "ERROR".data, body := [] }
  | some (PyErr.otherError m) => Except.error (PyErr.otherError m)
  | none => Except.ok (parse_output (accumTokens outcome.chunks))

/-- `true` iff the stream ended in an exception the script does not catch. -/
def isHardErr (outcome : StreamOutcome) : Bool :=
  match outcome.err with
  | some (PyErr.otherError _) => true
  | _ => false

/-- The post `generate_one_variant` hands back when it returns at all:
the sentinel on a caught `ValueError`, the parsed output otherwise. -/
def genPost (outcome : StreamOutcome) : Post :=
  match outcome.err with
  | some _ => { headline := "ERROR".data, body := [] }
  | none => parse_output (accumTokens outcome.chunks)

-- -------------------------
-- Entity extraction (extract_entities, lines 90-94)
-- -------------------------

/-- `[A-Za-z]`. -/
def isAsciiLetter (c : Char) : Bool := ('A' ≤ c && c ≤ 'Z') || ('a' ≤ c && c ≤ 'z')

/-- `[A-Z]`. -/
def isUpperAZ (c : Char) : Bool := 'A' ≤ c && c ≤ 'Z'

/-- `[a-z]`. -/
def isLowerAZ (c : Char) : Bool := 'a' ≤ c && c ≤ 'z'

/-- `[0-9]`. -/
def isDigit09 (c : Char) : Bool := '0' ≤ c && c ≤ '9'

/-- A word character for `\b` (`[A-Za-z0-9_]` on the ASCII inputs exercised here). -/
def isWordCh (c : Char) : Bool := isAsciiLetter c || isDigit09 c || c = '_'

/-- The class `[A-Za-z0-9._%+-]` (local part of the email pattern). -/
def isEmailLocalCh (c : Char) : Bool :=
  isAsciiLetter c || isDigit09 c || c = '.' || c = '_' || c = '%' || c = '+' || c = '-'

/-- The class `[A-Za-z0-9.-]` (domain part of the email pattern). -/
def isEmailDomCh (c : Char) : Bool :=
  isAsciiLetter c || isDigit09 c || c = '.' || c = '-'

/-- Backtracking of the greedy `[A-Za-z0-9.-]+` in the email pattern: try to
consume `k` domain characters (largest first), then require a literal dot
followed by a greedy run of at least two `[A-Za-z]`.  Returns the total
matched length within `rest` on success. -/
def emailDomTail (rest : Str) : Nat → Option Nat
  | 0 => none
  | k + 1 =>
    match rest.drop (k + 1) with
    | '.' :: tl =>
      let letters := (tl.takeWhile isAsciiLetter).length
      if 2 ≤ letters then some (k + 1 + 1 + letters) else emailDomTail rest k
    | _ => emailDomTail rest k

/-- Attempt the email regex `[A-Za-z0-9._%+-]+@[A-Za-z0-9.-]+\.[A-Za-z]{2,}`
at the head of `s`: returns the match and the remaining suffix. -/
def emailMatchAt (s : Str) : Option (Str × Str) :=
  let localPart := s.takeWhile isEmailLocalCh
  if localPart.isEmpty then none
  else
    match s.drop localPart.length with
    | '@' :: rest =>
      let domRun := (rest.takeWhile isEmailDomCh).length
      match emailDomTail rest domRun with
      | some n => some (localPart ++ '@' :: rest.take n, rest.drop n)
      | none => none
    | _ => none

/-- `re.findall` scan for the email pattern: leftmost matches, resuming
after each match (fuel is an upper bound on the scan length). -/
def emailFindallAux : Nat → Str → List Str
  | 0, _ => []
  | _ + 1, [] => []
  | fuel + 1, c :: cs =>
    match emailMatchAt (c :: cs) with
    | some (m, rest) => m :: emailFindallAux fuel rest
    | none => emailFindallAux fuel cs

def emailFindall (s : Str) : List Str := emailFindallAux s.length s

/-- Greedy scan of the `(?: [A-Z][a-z]+)*` tail of the proper-noun pattern:
returns the list of matched ` Word` segments and the remaining suffix. -/
def pnIters : Nat → Str → (List Str × Str)
  | 0, s => ([], s)
  | fuel + 1, s =>
    match s with
    | ' ' :: c :: rest =>
      if isUpperAZ c then
        let run := rest.takeWhile isLowerAZ
        if run.isEmpty then ([], s)
        else
          let (segs, rest2) := pnIters fuel (rest.drop run.length)
          ((' ' :: c :: run) :: segs, rest2)
      else ([], s)
    | _ => ([], s)

/-- Attempt the proper-noun regex `\b[A-Z][a-z]+(?: [A-Z][a-z]+)*\b` at the
head of `s`.  `prevWord` says whether the character before `s` is a word
character (for the leading `\b`).  The trailing `\b` fails only when the
next character is a word character; backtracking then drops the last
` Word` segment, after which the next character is the dropped segment's
space and the boundary holds — shrinking a greedy `[a-z]+` run can never
help, since the following character would again be a lowercase letter. -/
def pnMatchAt (prevWord : Bool) (s : Str) : Option (Str × Str) :=
  if prevWord then none
  else
    match s with
    | c :: rest =>
      if isUpperAZ c then
        let run := rest.takeWhile isLowerAZ
        if run.isEmpty then none
        else
          let rest1 := rest.drop run.length
          let (segs, rest2) := pnIters rest1.length rest1
          let boundaryOk := match rest2 with
            | [] => true
            | d :: _ => !isWordCh d
          if boundaryOk then some (c :: run ++ segs.flatten, rest2)
          else
            match segs.reverse with
            | [] => none
            | lastSeg :: revInit => some (c :: run ++ revInit.reverse.flatten, lastSeg ++ rest2)
      else none
    | [] => none

/-- `re.findall` scan for the proper-noun pattern, threading whether the
previous character was a word character. -/
def pnFindallAux : Nat → Bool → Str → List Str
  | 0, _, _ => []
  | _ + 1, _, [] => []
  | fuel + 1, prevWord, c :: cs =>
    match pnMatchAt prevWord (c :: cs) with
    | some (m, rest) => m :: pnFindallAux fuel true rest
    | none => pnFindallAux fuel (isWordCh c) cs

def pnFindall (s : Str) : List Str := pnFindallAux s.length false s

/-- Python `sorted(set(xs))`: the distinct elements in ascending order. -/
def dedupSort (xs : List Str) : List Str :=
  List.insertionSort (· ≤ ·) xs.dedup

/-- The `{"emails": ..., "proper_nouns": ...}` dict. -/
structure EntitySet where
  emails : List Str
  proper_nouns : List Str
deriving DecidableEq, Repr

/-- Lines 90-94: regex findall for emails and capitalized phrases, both
deduplicated and sorted. -/
def extract_entities (text : Str) : EntitySet :=
  { emails := dedupSort (emailFindall text)
    proper_nouns := dedupSort (pnFindall text) }

-- -------------------------
-- Content fetcher (scrape_url, lines 59-67)
-- -------------------------

/-- An exception out of `requests.get` (timeout, transport error, ...). -/
inductive NetErr where
  | timeout
  | transport
deriving DecidableEq, Repr

/-- An HTTP response as the script consumes it: the status code and the
text of each `<p>` element of the parsed page (the external HTML parser is
a collaborator; it extracts paragraph-level text nodes and never fails). -/
structure Response where
  status : Nat
  paras : List Str
deriving DecidableEq, Repr

/-- The network outcome of one `requests.get` call. -/
inductive NetResult where
  | err (e : NetErr)
  | ok (r : Response)
deriving DecidableEq, Repr

/-- `requests.Response.raise_for_status()`: raises on a 4xx or 5xx status. -/
def raise_for_status (r : Response) : Except NetErr Response :=
  if 400 ≤ r.status ∧ r.status < 600 then Except.error NetErr.transport else Except.ok r

/-- Lines 65-67: keep the paragraphs with non-empty stripped text, strip
each, and join with a blank line. -/
def joinParas (paras : List Str) : Str :=
  List.intercalate "\n\n".data ((paras.map pyStrip).filter (fun p => !p.isEmpty))

/-- Lines 59-67: `scrape_url`.  The `try`/bare-`except` around the request
and the status check turns every network failure into the empty string;
a successful response is reduced to its blank-line-joined paragraph texts. -/
def scrape_url (net : NetResult) : Str :=
  match net with
  | NetResult.err _ => []
  | NetResult.ok r =>
    match raise_for_status r with
    | Except.error _ => []
    | Except.ok r2 => joinParas r2.paras

-- -------------------------
-- Context enricher (serpapi_search, lines 70-87)
-- -------------------------

/-- One entry of the response's `"organic_results"` list; `link` is its
optional `"link"` field. -/
structure SerpItem where
  link : Option Str
deriving DecidableEq, Repr

/-- The decoded JSON body of a SerpAPI response, reduced to the field the
script reads: `data.get("organic_results", [])`. -/
structure SerpData where
  organic_results : List SerpItem
deriving DecidableEq, Repr

/-- The outcome of the search request: an exception anywhere in the
`try` block (request or JSON decoding), or decoded data. -/
inductive SerpResp where
  | fail
  | ok (data : SerpData)
deriving DecidableEq, Repr

/-- Lines 70-87: `serpapi_search`.  `validUrl` is the external
`validators.url` predicate.  A missing or empty (falsy) API key returns
`[]` at once; any exception in the request also yields `[]`; otherwise the
first `num` organic results with a present, non-empty, valid link survive. -/
def serpapi_search (serpKey : Option Str) (validUrl : Str → Bool)
    (resp : SerpResp) (num : Nat) : List Str :=
  match serpKey with
  | none => []
  | some k =>
    if k.isEmpty then []
    else
      match resp with
      | SerpResp.fail => []
      | SerpResp.ok data =>
        (data.organic_results.take num).filterMap (fun item =>
          match item.link with
          | some l => if !l.isEmpty && validUrl l then some l else none
          | none => none)

-- -------------------------
-- Result store (init_excel / append_to_excel_row / save_serp_debug, lines 212-254)
-- -------------------------

/-- The workbook file: the `linkedin` sheet always exists in a workbook
the script creates; `serp_debug` may be absent from a foreign workbook,
which `save_serp_debug` guards against.  Each sheet is its full list of
rows, header included when one was ever written. -/
structure Workbook where
  linkedin : List (List Str)
  serp_debug : Option (List (List Str))
deriving DecidableEq, Repr

/-- The seven-column header of the `linkedin` sheet (lines 217-225). -/
def linkedinHeader : List Str :=
  [ "source_url".data, "variant".data, "headline".data, "body".data,
    "serp_emails".data, "serp_proper_nouns".data, "serp_links".data ]

/-- The three-column header `save_serp_debug` writes when it has to create
the `serp_debug` sheet itself (line 250). -/
def serpDebugHeader : List Str :=
  [ "source_url".data, "serp_links".data, "serp_text".data ]

/-- Lines 212-228: `init_excel`.  Nothing happens when the file exists;
otherwise a fresh workbook is written whose `linkedin` sheet holds the
seven-column header row and whose `serp_debug` sheet is created empty
(`wb.create_sheet` writes no rows). -/
def init_excel (store : Option Workbook) : Option Workbook :=
  match store with
  | some wb => some wb
  | none => some { linkedin := [linkedinHeader], serp_debug := some [] }

/-- Minimal model of `json.dumps` on a list of strings (an external
collaborator): quote each entry, escaping backslash and double quote, and
join with `", "` inside brackets. -/
def jsonEscape (s : Str) : Str :=
  s.flatMap (fun c => if c = '"' || c = '\\' then ['\\', c] else [c])

def jsonDumps (xs : List Str) : Str :=
  '[' :: commaJoin (xs.map (fun s => '"' :: jsonEscape s ++ ['"'])) ++ [']']

/-- Lines 231-243: `append_to_excel_row` with the dict `main` builds at
lines 292-300: one seven-column row on the `linkedin` sheet, the three
list-valued fields rendered comma-and-space-joined. -/
def append_to_excel_row (source_url variant : Str) (post : Post)
    (entities : EntitySet) (serp_links : List Str) (wb : Workbook) : Workbook :=
  { wb with linkedin := wb.linkedin ++
      [[ source_url, variant, post.headline, post.body,
         commaJoin entities.emails, commaJoin entities.proper_nouns,
         commaJoin serp_links ]] }

/-- Lines 246-254: `save_serp_debug`.  When the `serp_debug` sheet is
missing it is created and its header row written first; the debug row
carries the JSON-encoded link list and the text capped to 5000 characters. -/
def save_serp_debug (url : Str) (serp_links : List Str) (serp_text : Str)
    (wb : Workbook) : Workbook :=
  let row := [url, jsonDumps serp_links, serp_text.take 5000]
  match wb.serp_debug with
  | none => { wb with serp_debug := some [serpDebugHeader, row] }
  | some rows => { wb with serp_debug := some (rows ++ [row]) }

-- -------------------------
-- Main loop (main, lines 260-304)
-- -------------------------

/-- The configured blog list (lines 42-46). -/
def BLOG_URLS : List Str :=
  [ ("https://pallavighxsh.wordpress.com/2025/01/28/ai-tone-consistency-in-brand-aligned-communication/").data,
    ("https://pallavighxsh.wordpress.com/2024/10/22/tone-it-down-can-ai-really-get-your-brand-voices-vibe/").data,
    ("https://pallavighxsh.wordpress.com/2024/07/08/on-generative-ai/").data ]

/-- One run's external world, resolved up front: the network outcome of
each `requests.get` by URL, the search key, the search response by query,
the `validators.url` predicate, whether `load_llm` produced a handle, the
stream outcome of each `llm(...)` call by (source URL, variant label), and
the store file's prior content (`none` = the file does not exist). -/
structure Env where
  net : Str → NetResult
  serpKey : Option Str
  serpResp : Str → SerpResp
  validUrl : Str → Bool
  llmOk : Bool
  gen : Str → Str → StreamOutcome
  store0 : Option Workbook

/-- The blog text `main` obtains for `url` (line 268). -/
def itemBlog (env : Env) (url : Str) : Str := scrape_url (env.net url)

/-- The SERP links for `url` (line 274): query is the first 80 characters
of the blog text, result count capped at 5. -/
def itemLinks (env : Env) (url : Str) : List Str :=
  serpapi_search env.serpKey env.validUrl (env.serpResp ((itemBlog env url).take 80)) 5

/-- The accumulated SERP text for `url` (lines 277-280): each linked page's
scrape followed by a blank line. -/
def itemSerpText (env : Env) (url : Str) : Str :=
  (itemLinks env url).foldl (fun acc l => acc ++ scrape_url (env.net l) ++ "\n\n".data) []

/-- Lines 289-302: the per-item variant loop.  Every append saves the
workbook file synchronously, so when a generation call raises an exception
the script does not catch (anything but `ValueError`), the rows already
appended persist and the exception propagates: the result is the store as
last saved, paired with the uncaught exception, if any. -/
def runVariants (env : Env) (url : Str) (entities : EntitySet) (serp_links : List Str) :
    List (Str × Str) → Workbook → Workbook × Option PyErr
  | [], wb => (wb, none)
  | v :: vs, wb =>
    match generate_one_variant (env.gen url v.1) with
    | Except.error e => (wb, some e)
    | Except.ok post =>
      runVariants env url entities serp_links vs
        (append_to_excel_row url v.1 post entities serp_links wb)

/-- Lines 266-302: the body of the per-URL loop.  An empty blog text skips
the item entirely; otherwise one debug row is saved and then each of the
three variants is generated and appended. -/
def processItem (env : Env) (wb : Workbook) (url : Str) : Workbook × Option PyErr :=
  let blog_text := itemBlog env url
  if blog_text.isEmpty then (wb, none)
  else
    let serp_links := itemLinks env url
    let serp_text := itemSerpText env url
    let entities := extract_entities serp_text
    let wb1 := save_serp_debug url serp_links serp_text wb
    runVariants env url entities serp_links VARIANTS wb1

/-- Line 266: the loop over the configured URLs, stopping at the first
uncaught exception (which propagates out of `main`). -/
def runUrls (env : Env) : List Str → Workbook → Workbook × Option PyErr
  | [], wb => (wb, none)
  | u :: us, wb =>
    match processItem env wb u with
    | (wb1, some e) => (wb1, some e)
    | (wb1, none) => runUrls env us wb1

/-- Lines 260-304: `main`.  Initialize the store, bail out before the loop
when the model failed to load, then process each configured URL in order.
The result is the store file's final content together with the uncaught
exception that aborted the run, if any. -/
def main_run (env : Env) : Option Workbook × Option PyErr :=
  match init_excel env.store0 with
  | none => (none, none)
  | some wb0 =>
    if !env.llmOk then (some wb0, none)
    else
      match runUrls env BLOG_URLS wb0 with
      | (wb1, err) => (some wb1, err)

/-- The `linkedin` row the run appends for `(url, variant)` when it
completes: built from the variant's generation outcome and the item's
entities and links. -/
def outRowOf (env : Env) (url : Str) (v : Str × Str) : List Str :=
  [ url, v.1, (genPost (env.gen url v.1)).headline, (genPost (env.gen url v.1)).body,
    commaJoin (extract_entities (itemSerpText env url)).emails,
    commaJoin (extract_entities (itemSerpText env url)).proper_nouns,
    commaJoin (itemLinks env url) ]

/-- The `serp_debug` row the run appends for `url`. -/
def dbgRowOf (env : Env) (url : Str) : List Str :=
  [url, jsonDumps (itemLinks env url), (itemSerpText env url).take 5000]

/-- Concrete run environment for the completed-run witness: every fetch
yields one paragraph, no search credential, every generation stream ends
cleanly with no chunks. -/
def env0 : Env :=
  { net := fun _ => NetResult.ok { status := 200, paras := ["hello world".data] }
    serpKey := none
    serpResp := fun _ => SerpResp.fail
    validUrl := fun _ => false
    llmOk := true
    gen := fun _ _ => { chunks := [], err := none }
    store0 := none }

/-- Concrete run environment for the aborted-run counterexample: identical
to `env0` except that every generation call raises an exception that is
not a `ValueError`, which the script does not catch. -/
def cexEnv : Env :=
  { net := fun _ => NetResult.ok { status := 200, paras := ["hello world".data] }
    serpKey := none
    serpResp := fun _ => SerpResp.fail
    validUrl := fun _ => false
    llmOk := true
    gen := fun _ _ => { chunks := [], err := some (PyErr.otherError ("backend crash").data) }
    store0 := none }

-- -------------------------
-- Theorems
-- -------------------------

/-- C2 counterexample: on a missing store file, `init_excel` creates the
`serp_debug` sheet EMPTY — its three-column header row is not written, so
the claim's "serp_debug with its three-column header row" fails on the
concrete fresh-store input. -/
theorem init_excel_no_debug_header :
    (init_excel none).map Workbook.serp_debug = some (some []) ∧
    (init_excel none).map Workbook.serp_debug ≠ some (some [serpDebugHeader]) := by
  constructor
  · rfl
  · decide

/-- C2 (amended): when the store file does not exist, initialization
creates the `linkedin` sheet with its seven-column header row and an empty
`serp_debug` sheet carrying no header row; re-running initialization on an
existing store returns it unchanged. -/
theorem init_excel_amended :
    init_excel none = some { linkedin := [linkedinHeader], serp_debug := some [] } ∧
    ∀ wb : Workbook, init_excel (some wb) = some wb :=
  ⟨rfl, fun _ => rfl⟩

/-- C4 counterexample: a generation-time failure that is not a `ValueError`
is NOT turned into the sentinel result — it propagates out of
`generate_one_variant`, so the claim's "for every generation-time internal
failure" fails on this concrete stream outcome. -/
theorem generate_propagates_other_error :
    generate_one_variant { chunks := [], err := some (PyErr.otherError []) } =
      Except.error (PyErr.otherError []) ∧
    generate_one_variant { chunks := [], err := some (PyErr.otherError []) } ≠
      Except.ok { headline := "ERROR".data, body := [] } :=
  ⟨rfl, fun h => Except.noConfusion h⟩

/-- C4 (amended): every generation-time `ValueError` raised during the
model call yields the sentinel `{headline: "ERROR", body: ""}` without
propagating, so the remaining variants and items continue; a failure of
any other exception class propagates to the caller. -/
theorem generate_error_handling :
    (∀ (o : StreamOutcome) (m : Str), o.err = some (PyErr.valueError m) →
      generate_one_variant o = Except.ok { headline := "ERROR".data, body := [] }) ∧
    (∀ (o : StreamOutcome) (m : Str), o.err = some (PyErr.otherError m) →
      generate_one_variant o = Except.error (PyErr.otherError m)) := by
  constructor
  · intro o m h
    simp [generate_one_variant, h]
  · intro o m h
    simp [generate_one_variant, h]

/-- C4 witness: both branches of `generate_error_handling` at concrete
stream outcomes. -/
theorem generate_error_handling_witness :
    generate_one_variant { chunks := [], err := some (PyErr.valueError "overflow".data) } =
      Except.ok { headline := "ERROR".data, body := [] } ∧
    generate_one_variant { chunks := [], err := some (PyErr.otherError "backend".data) } =
      Except.error (PyErr.otherError "backend".data) :=
  ⟨generate_error_handling.1 _ _ rfl, generate_error_handling.2 _ _ rfl⟩

/-- C5: prompt composition uses only the first 5000 characters of the blog
text and the first 7000 characters of the enrichment text; the final cap
returns a prompt of at most 7000 characters unchanged, and cuts a longer
one to exactly 7000 characters that are a prefix of the untruncated
composition. -/
theorem prompt_trim_spec :
    (∀ lbl instr blog serp : Str,
      compose_prompt lbl instr blog serp =
        compose_prompt lbl instr (blog.take 5000) (serp.take 7000)) ∧
    (∀ p : Str, p.length ≤ 7000 → final_trim_prompt p 7000 = p) ∧
    (∀ p : Str, 7000 < p.length →
      (final_trim_prompt p 7000).length = 7000 ∧
      ∃ rest, p = final_trim_prompt p 7000 ++ rest) := by
  refine ⟨?_, ?_, ?_⟩
  · intro lbl instr blog serp
    have hm : mkCombined (blog.take 5000) (serp.take 7000) = mkCombined blog serp := by
      unfold mkCombined
      rw [List.take_take, List.take_take, Nat.min_self, Nat.min_self]
    unfold compose_prompt
    rw [hm]
  · intro p h
    simp [final_trim_prompt, h]
  · intro p h
    have hn : ¬ p.length ≤ 7000 := by omega
    refine ⟨?_, ⟨p.drop 7000, ?_⟩⟩
    · simp [final_trim_prompt, hn, List.length_take]
      omega
    · simp [final_trim_prompt, hn]

/-- C5 witness: the cap at concrete short and long prompts. -/
theorem prompt_trim_spec_witness :
    final_trim_prompt "abc".data 7000 = "abc".data ∧
    ((final_trim_prompt (List.replicate 7001 'a') 7000).length = 7000 ∧
      ∃ rest, List.replicate 7001 'a' = final_trim_prompt (List.replicate 7001 'a') 7000 ++ rest) :=
  ⟨prompt_trim_spec.2.1 _ (by decide),
   prompt_trim_spec.2.2 _ (by rw [List.length_replicate]; omega)⟩

/-- C7: `scrape_url` returns the empty string on every network failure and
on every error status (without raising), and otherwise the blank-line
joined, boundary-stripped, non-empty paragraph texts of the page. -/
theorem scrape_url_spec :
    (∀ e : NetErr, scrape_url (NetResult.err e) = []) ∧
    (∀ r : Response, 400 ≤ r.status → r.status < 600 →
      scrape_url (NetResult.ok r) = []) ∧
    (∀ r : Response, ¬(400 ≤ r.status ∧ r.status < 600) →
      scrape_url (NetResult.ok r) =
        List.intercalate "\n\n".data ((r.paras.map pyStrip).filter (fun p => !p.isEmpty))) := by
  refine ⟨fun e => rfl, ?_, ?_⟩
  · intro r h1 h2
    have hr : raise_for_status r = Except.error NetErr.transport := by
      unfold raise_for_status
      rw [if_pos ⟨h1, h2⟩]
    simp [scrape_url, hr]
  · intro r h
    have hr : raise_for_status r = Except.ok r := by
      unfold raise_for_status
      rw [if_neg h]
    simp [scrape_url, hr, joinParas]

/-- C7 witness: a 404 response yields the empty string; a 200 response
with paragraphs `["  hi  ", "", "there"]` yields `"hi\n\nthere"`. -/
theorem scrape_url_spec_witness :
    scrape_url (NetResult.ok { status := 404, paras := ["x".data] }) = [] ∧
    scrape_url (NetResult.ok { status := 200, paras := ["  hi  ".data, [], "there".data] }) =
      "hi\n\nthere".data :=
  ⟨scrape_url_spec.2.1 _ (by decide) (by decide),
   (scrape_url_spec.2.2 _ (by decide)).trans (by decide)⟩

/-- C8: the search step returns `[]` when no (or an empty) credential is
configured and when the request fails, and otherwise at most `num` results,
every one of which satisfies the URL-validity predicate. -/
theorem serpapi_search_spec :
    (∀ (validUrl : Str → Bool) (resp : SerpResp) (num : Nat),
      serpapi_search none validUrl resp num = []) ∧
    (∀ (k : Str) (validUrl : Str → Bool) (resp : SerpResp) (num : Nat),
      k.isEmpty = true → serpapi_search (some k) validUrl resp num = []) ∧
    (∀ (key : Option Str) (validUrl : Str → Bool) (num : Nat),
      serpapi_search key validUrl SerpResp.fail num = []) ∧
    (∀ (key : Option Str) (validUrl : Str → Bool) (resp : SerpResp) (num : Nat),
      (serpapi_search key validUrl resp num).length ≤ num ∧
      ∀ l ∈ serpapi_search key validUrl resp num, validUrl l = true) := by
  refine ⟨fun _ _ _ => rfl, ?_, ?_, ?_⟩
  · intro k validUrl resp num hk
    simp [serpapi_search, hk]
  · intro key validUrl num
    cases key with
    | none => rfl
    | some k =>
      by_cases hk : k.isEmpty <;> simp [serpapi_search, hk]
  · intro key validUrl resp num
    cases key with
    | none => simp [serpapi_search]
    | some k =>
      by_cases hk : k.isEmpty
      · simp [serpapi_search, hk]
      · cases resp with
        | fail => simp [serpapi_search, hk]
        | ok data =>
          have hs : serpapi_search (some k) validUrl (SerpResp.ok data) num =
              if k.isEmpty = true then [] else
                (data.organic_results.take num).filterMap (fun item =>
                  match item.link with
                  | some l => if !l.isEmpty && validUrl l then some l else none
                  | none => none) := rfl
          rw [hs, if_neg hk]
          constructor
          · exact le_trans (List.length_filterMap_le _ _) (List.length_take_le _ _)
          · intro l hl
            rcases List.mem_filterMap.mp hl with ⟨item, _, hitem⟩
            cases hlink : item.link with
            | none => rw [hlink] at hitem; exact Option.noConfusion hitem
            | some s =>
              rw [hlink] at hitem
              have hitem2 : (if (!s.isEmpty && validUrl s) = true then some s else none) =
                  some l := hitem
              by_cases hcond : (!s.isEmpty && validUrl s) = true
              · rw [if_pos hcond] at hitem2
                cases hitem2
                exact Bool.and_elim_right hcond
              · rw [if_neg hcond] at hitem2
                exact Option.noConfusion hitem2

/-- C8 witness: the empty-credential branch of `serpapi_search_spec` at a
concrete call. -/
theorem serpapi_search_spec_witness :
    serpapi_search (some []) (fun _ => true) SerpResp.fail 5 = [] :=
  serpapi_search_spec.2.1 [] (fun _ => true) SerpResp.fail 5 rfl

/-- C6: for every input text the extractor returns deduplicated, sorted
email and proper-noun lists, never fails (it is a total pure function, so
two applications to the same input are identical); on the concrete text
containing `jane.doe@example.com` and `Jane Doe` it returns exactly those
two entities. -/
theorem extract_entities_spec :
    (∀ text : Str,
      List.Sorted (· ≤ ·) (extract_entities text).emails ∧
      (extract_entities text).emails.Nodup ∧
      List.Sorted (· ≤ ·) (extract_entities text).proper_nouns ∧
      (extract_entities text).proper_nouns.Nodup ∧
      extract_entities text = extract_entities text) ∧
    extract_entities "jane.doe@example.com Jane Doe".data =
      { emails := ["jane.doe@example.com".data],
        proper_nouns := ["Jane Doe".data] } := by
  constructor
  · intro text
    refine ⟨?_, ?_, ?_, ?_, rfl⟩
    · exact List.sorted_insertionSort _ _
    · exact ((List.perm_insertionSort _ _).nodup_iff).mpr (List.nodup_dedup _)
    · exact List.sorted_insertionSort _ _
    · exact ((List.perm_insertionSort _ _).nodup_iff).mpr (List.nodup_dedup _)
  · decide

lemma strStartsWith_self_append (p r : Str) : strStartsWith p (p ++ r) = true := by
  induction p with
  | nil => rfl
  | cons c cs ih => simpa [strStartsWith] using ih

/-- `splitFirst` returns the decomposition around an occurrence before
which no other occurrence starts. -/
lemma splitFirst_first (pat : Str) (hne : pat ≠ []) :
    ∀ (a b : Str),
      (∀ i, i < a.length → strStartsWith pat ((a ++ (pat ++ b)).drop i) = false) →
      splitFirst pat (a ++ (pat ++ b)) = some (a, b)
  | [], b, _ => by
    cases pat with
    | nil => exact absurd rfl hne
    | cons p ps =>
      show splitFirst (p :: ps) ((p :: ps) ++ b) = some ([], b)
      have hst := strStartsWith_self_append (p :: ps) b
      simp only [List.nil_append, splitFirst]
      rw [if_pos (show strStartsWith (p :: ps) (p :: ps.append b) = true from hst)]
      simp [List.drop_left]
  | c :: a', b, h => by
    have h0 : strStartsWith pat (c :: (a' ++ (pat ++ b))) = false := by
      have := h 0 (by simp)
      simpa using this
    have ih := splitFirst_first pat hne a' b (fun i hi => by
      have := h (i + 1) (by simp; omega)
      simpa using this)
    show splitFirst pat (c :: (a' ++ (pat ++ b))) = some (c :: a', b)
    simp only [splitFirst, h0, Bool.false_eq_true, if_false, ih]
    rfl

lemma parse_output_no_marker (s : Str) (h : containsSub postMarker s = false) :
    parse_output s = { headline := "LinkedIn Post".data, body := pyStrip s } := by
  unfold containsSub at h
  cases hs : splitFirst postMarker s with
  | none => simp [parse_output, hs]
  | some p => rw [hs] at h; exact absurd h (by simp)

/-- C3: for every accumulated output containing `"POST:"`, the parser
splits at the first occurrence — headline is the front part with the
`"HEADLINE:"` marker removed and stripped, body is the stripped back
part; for every output lacking `"POST:"`, the result is the placeholder
headline `"LinkedIn Post"` with the whole stripped output as body. -/
theorem parse_split_spec :
    (∀ a b : Str,
      (∀ i, i < a.length → strStartsWith postMarker ((a ++ (postMarker ++ b)).drop i) = false) →
      parse_output (a ++ (postMarker ++ b)) =
        { headline := pyStrip (removeAll headlineMarker a), body := pyStrip b }) ∧
    (∀ s : Str, containsSub postMarker s = false →
      parse_output s = { headline := "LinkedIn Post".data, body := pyStrip s }) := by
  constructor
  · intro a b h
    have hsp := splitFirst_first postMarker (by decide) a b h
    simp [parse_output, hsp, removeAll]
  · exact parse_output_no_marker

/-- C3 witness: both branches of `parse_split_spec` at concrete outputs. -/
theorem parse_split_spec_witness :
    parse_output ("HEADLINE: My Title \n".data ++ (postMarker ++ " Body here ".data)) =
      { headline := "My Title".data, body := "Body here".data } ∧
    parse_output "no marker".data =
      { headline := "LinkedIn Post".data, body := "no marker".data } :=
  ⟨(parse_split_spec.1 "HEADLINE: My Title \n".data " Body here ".data (by decide)).trans
     (by decide),
   (parse_split_spec.2 "no marker".data (by decide)).trans (by decide)⟩

/-- No occurrence of a pattern headed by `p` can start inside a segment
that does not contain `p`. -/
lemma noStart_of_head_notMem (p : Char) (ps : Str) :
    ∀ (a rest : Str), p ∉ a →
      ∀ i, i < a.length → strStartsWith (p :: ps) ((a ++ rest).drop i) = false
  | [], _, _, i, hi => absurd hi (by simp)
  | c :: a', rest, hp, 0, _ => by
    have hpc : ¬ p = c := fun e => hp (by rw [e]; exact List.mem_cons_self c a')
    show strStartsWith (p :: ps) (c :: (a' ++ rest)) = false
    show (if p = c then strStartsWith ps (a' ++ rest) else false) = false
    rw [if_neg hpc]
  | c :: a', rest, hp, i + 1, hi => by
    have hp' : p ∉ a' := fun hm => hp (List.mem_cons_of_mem _ hm)
    have := noStart_of_head_notMem p ps a' rest hp' i (by simp at hi; omega)
    simpa using this

lemma removeAllAux_skip (pat : Str) :
    ∀ (l rest : Str), removeAllAux pat l.length (l ++ rest) = removeAllAux pat 0 rest
  | [], _ => rfl
  | c :: l', rest => by
    show removeAllAux pat (l'.length + 1) (c :: (l' ++ rest)) = _
    rw [removeAllAux]
    exact removeAllAux_skip pat l' rest

/-- An occurrence of the pattern at the scan position is removed whole. -/
lemma removeAllAux_consume (p : Char) (ps rest : Str) :
    removeAllAux (p :: ps) 0 ((p :: ps) ++ rest) = removeAllAux (p :: ps) 0 rest := by
  have h1 : strStartsWith (p :: ps) ((p :: ps) ++ rest) = true := strStartsWith_self_append _ _
  show removeAllAux (p :: ps) 0 (p :: (ps ++ rest)) = _
  rw [removeAllAux, if_pos ⟨h1, by simp⟩]
  have : (p :: ps).length - 1 = ps.length := by simp
  rw [this]
  exact removeAllAux_skip (p :: ps) ps rest

/-- A segment free of the pattern's head character is copied unchanged. -/
lemma removeAllAux_seg (p : Char) (ps : Str) :
    ∀ (t rest : Str), (∀ c ∈ t, c ≠ p) →
      removeAllAux (p :: ps) 0 (t ++ rest) = t ++ removeAllAux (p :: ps) 0 rest
  | [], _, _ => rfl
  | c :: t', rest, h => by
    have hcp : c ≠ p := h c (List.mem_cons_self _ _)
    have hf : strStartsWith (p :: ps) (c :: (t' ++ rest)) = false := by
      show (if p = c then strStartsWith ps (t' ++ rest) else false) = false
      rw [if_neg (fun e => hcp e.symm)]
    show removeAllAux (p :: ps) 0 (c :: (t' ++ rest)) = _
    rw [removeAllAux, if_neg (fun hx => by rw [hf] at hx; exact Bool.noConfusion hx.1)]
    have ih := removeAllAux_seg p ps t' rest (fun d hd => h d (List.mem_cons_of_mem _ hd))
    rw [ih]
    rfl

/-- C9: the parser removes every occurrence of the literal `"HEADLINE:"`
from the headline side and nothing else — other envelope text the model
emits, such as a leading `"###"` heading token before the marker and the
closing `"###"` at the end of the body, is retained verbatim in the
returned fields (up to boundary-whitespace stripping). -/
theorem parse_envelope_retention :
    ∀ t u b : Str,
      (∀ c ∈ t, c ≠ 'H' ∧ c ≠ 'P') →
      (∀ c ∈ u, c ≠ 'H' ∧ c ≠ 'P') →
      parse_output
        ((("###\n").data ++ (headlineMarker ++ (t ++ (headlineMarker ++ (u ++ ("\n").data)))))
          ++ (postMarker ++ (b ++ ("\n###").data))) =
        { headline := pyStrip (("###\n").data ++ (t ++ (u ++ ("\n").data)))
          body := pyStrip (b ++ ("\n###").data) } := by
  intro t u b ht hu
  have hP : 'P' ∉
      (("###\n").data ++ (headlineMarker ++ (t ++ (headlineMarker ++ (u ++ ("\n").data))))) := by
    intro hmem
    simp only [List.mem_append] at hmem
    rcases hmem with h1 | h2 | h3 | h4 | h5 | h6
    · exact absurd h1 (by decide)
    · exact absurd h2 (by decide)
    · exact (ht 'P' h3).2 rfl
    · exact absurd h4 (by decide)
    · exact (hu 'P' h5).2 rfl
    · exact absurd h6 (by decide)
  have hyp : ∀ i, i <
      (("###\n").data ++ (headlineMarker ++ (t ++ (headlineMarker ++ (u ++ ("\n").data))))).length →
      strStartsWith postMarker
        (((("###\n").data ++ (headlineMarker ++ (t ++ (headlineMarker ++ (u ++ ("\n").data)))))
          ++ (postMarker ++ (b ++ ("\n###").data))).drop i) = false := by
    intro i hi
    exact noStart_of_head_notMem 'P' ("OST:").data _ _ hP i hi
  have hsplit := parse_split_spec.1 _ (b ++ ("\n###").data) hyp
  have hth : ∀ c ∈ t, c ≠ 'H' := fun c hc => (ht c hc).1
  have huh : ∀ c ∈ u, c ≠ 'H' := fun c hc => (hu c hc).1
  have hrm : removeAll headlineMarker
      (("###\n").data ++ (headlineMarker ++ (t ++ (headlineMarker ++ (u ++ ("\n").data))))) =
      ("###\n").data ++ (t ++ (u ++ ("\n").data)) := by
    show removeAllAux headlineMarker 0 _ = _
    rw [show headlineMarker = 'H' :: ("EADLINE:").data from rfl]
    rw [removeAllAux_seg 'H' ("EADLINE:").data ("###\n").data _ (by decide)]
    rw [removeAllAux_consume]
    rw [removeAllAux_seg 'H' ("EADLINE:").data t _ hth]
    rw [removeAllAux_consume]
    rw [removeAllAux_seg 'H' ("EADLINE:").data u _ huh]
    rw [show removeAllAux ('H' :: ("EADLINE:").data) 0 ("\n").data = ("\n").data from by decide]
  rw [hsplit, hrm]

/-- C9 witness: `parse_envelope_retention` at a concrete model output with
a leading heading token, a doubled `"HEADLINE:"` marker and a closing
`"###"`: both marker occurrences disappear, both `"###"` tokens stay. -/
theorem parse_envelope_retention_witness :
    parse_output
        ((("###\n").data ++ (headlineMarker ++ (("my title ").data ++ (headlineMarker ++ (("more words").data ++ ("\n").data)))))
          ++ (postMarker ++ ((" The body ").data ++ ("\n###").data))) =
      { headline := ("###\nmy title more words").data
        body := ("The body \n###").data } :=
  (parse_envelope_retention ("my title ").data ("more words").data (" The body ").data
    (by decide) (by decide)).trans (by decide)

/-- For any prompt of shape `pre ++ combined ++ TPL_D` whose fixed prefix
is at least 1188 characters and whose combined background is at least 5801
characters, the 7000-character cap cuts before `ENV_PART` begins. -/
lemma cap_cuts_before_envelope (pre combined : Str)
    (hpre : 1188 ≤ pre.length) (hc : 5801 ≤ combined.length) :
    7000 < (pre ++ (combined ++ TPL_D)).length ∧
    final_trim_prompt (pre ++ (combined ++ TPL_D)) 7000 =
      (pre ++ (combined ++ MID_SEP)).take 7000 := by
  have hd : TPL_D = MID_SEP ++ ENV_PART := by decide
  have h1 : 7000 < (pre ++ (combined ++ TPL_D)).length := by
    simp only [List.length_append, show TPL_D.length = 310 from by decide]
    omega
  refine ⟨h1, ?_⟩
  unfold final_trim_prompt
  rw [if_neg (by omega)]
  rw [hd]
  rw [show pre ++ (combined ++ (MID_SEP ++ ENV_PART)) =
      (pre ++ (combined ++ MID_SEP)) ++ ENV_PART by simp [List.append_assoc]]
  rw [List.take_append_of_le_length]
  simp only [List.length_append, show MID_SEP.length = 11 from by decide]
  omega

/-- C10: for each of the three configured variants, whenever the truncated
combined background exceeds 5800 characters (in particular whenever both
inputs reach their 5000/7000 budgets), the composed prompt exceeds 7000
characters and the final cap removes the entire mandatory output-envelope
block (`ENV_PART`, everything of the template from `Follow this EXACT
output structure` onward): the prompt actually sent equals the capped
envelope-free composition. -/
theorem prompt_cap_drops_envelope :
    TPL_D = MID_SEP ++ ENV_PART ∧
    ∀ v ∈ VARIANTS, ∀ blog serp : Str,
      5801 ≤ (mkCombined blog serp).length →
      7000 < (compose_prompt v.1 v.2 blog serp).length ∧
      final_trim_prompt (compose_prompt v.1 v.2 blog serp) 7000 =
        (TPL_A ++ v.1 ++ TPL_B ++ v.2 ++ TPL_C ++ mkCombined blog serp ++ MID_SEP).take 7000 := by
  refine ⟨by decide, ?_⟩
  intro v hv blog serp hc
  have hpre : 1188 ≤ (TPL_A ++ v.1 ++ TPL_B ++ v.2 ++ TPL_C).length := by
    simp only [VARIANTS, List.mem_cons, List.not_mem_nil, or_false] at hv
    rcases hv with h | h | h <;> subst h <;> decide
  have h := cap_cuts_before_envelope (TPL_A ++ v.1 ++ TPL_B ++ v.2 ++ TPL_C)
    (mkCombined blog serp) hpre hc
  have he : compose_prompt v.1 v.2 blog serp =
      (TPL_A ++ v.1 ++ TPL_B ++ v.2 ++ TPL_C) ++ (mkCombined blog serp ++ TPL_D) := by
    unfold compose_prompt
    simp [List.append_assoc]
  constructor
  · rw [he]; exact h.1
  · rw [he, h.2]
    congr 1
    simp [List.append_assoc]

/-- C10 witness: the first variant with an empty blog text and a
5799-character enrichment text (combined background of exactly 5801
characters). -/
theorem prompt_cap_drops_envelope_witness :
    7000 < (compose_prompt ("Thought Leadership").data
        ("Write a senior thought-leadership piece: big-picture insights, implications, frameworks.").data
        [] (List.replicate 5799 'b')).length ∧
    final_trim_prompt (compose_prompt ("Thought Leadership").data
        ("Write a senior thought-leadership piece: big-picture insights, implications, frameworks.").data
        [] (List.replicate 5799 'b')) 7000 =
      (TPL_A ++ ("Thought Leadership").data ++ TPL_B ++
        ("Write a senior thought-leadership piece: big-picture insights, implications, frameworks.").data ++
        TPL_C ++ mkCombined [] (List.replicate 5799 'b') ++ MID_SEP).take 7000 :=
  prompt_cap_drops_envelope.2
    (("Thought Leadership").data,
     ("Write a senior thought-leadership piece: big-picture insights, implications, frameworks.").data)
    (by decide) [] (List.replicate 5799 'b')
    (by unfold mkCombined
        rw [List.take_nil, List.nil_append, List.take_replicate, List.length_append,
          List.length_replicate, show (("\n\n").data).length = 2 from rfl]
        omega)

/-- A stream outcome the script survives is answered with `genPost`. -/
lemma generate_ok (o : StreamOutcome) (h : isHardErr o = false) :
    generate_one_variant o = Except.ok (genPost o) := by
  cases he : o.err with
  | none => simp [generate_one_variant, genPost, he]
  | some e =>
    cases e with
    | valueError m => simp [generate_one_variant, genPost, he]
    | otherError m => simp [isHardErr, he] at h

/-- An item whose fetch comes back empty is skipped without touching the store. -/
lemma processItem_skip (env : Env) (wb : Workbook) (url : Str)
    (h : itemBlog env url = []) : processItem env wb url = (wb, none) := by
  simp [processItem, h]

/-- An item whose fetch comes back non-empty, none of whose generation
calls raises an uncaught exception, appends exactly one debug row and one
`linkedin` row per variant, in order. -/
lemma processItem_go (env : Env) (wb : Workbook) (url : Str) (rows : List (List Str))
    (hb : ¬ itemBlog env url = []) (hsd : wb.serp_debug = some rows)
    (hg : ∀ lbl, isHardErr (env.gen url lbl) = false) :
    processItem env wb url =
      ({ linkedin := wb.linkedin ++ VARIANTS.map (outRowOf env url),
         serp_debug := some (rows ++ [dbgRowOf env url]) }, none) := by
  have hgen : ∀ lbl, generate_one_variant (env.gen url lbl) =
      Except.ok (genPost (env.gen url lbl)) := fun lbl => generate_ok _ (hg lbl)
  simp [processItem, hb, save_serp_debug, hsd, VARIANTS, runVariants, hgen,
    append_to_excel_row, outRowOf, dbgRowOf, List.append_assoc]

/-- Running the per-URL loop over any URL list from a store whose debug
sheet exists appends, when no generation call raises an uncaught
exception, exactly one debug row per URL with non-empty fetched text and
one `linkedin` row per (such URL, variant) pair — and nothing for the
URLs whose fetch came back empty — finishing with no uncaught exception. -/
lemma runUrls_ok (env : Env) (hg : ∀ u lbl, isHardErr (env.gen u lbl) = false) :
    ∀ (urls : List Str) (wb : Workbook) (rows : List (List Str)),
      wb.serp_debug = some rows →
      runUrls env urls wb =
        ({ linkedin := wb.linkedin ++
            (urls.filter (fun u => !(itemBlog env u).isEmpty)).flatMap
              (fun u => VARIANTS.map (outRowOf env u)),
           serp_debug := some (rows ++
            (urls.filter (fun u => !(itemBlog env u).isEmpty)).map (dbgRowOf env)) }, none)
  | [], wb, rows, hsd => by
    cases wb with
    | mk l sd =>
      simp only [Workbook.serp_debug] at hsd
      subst hsd
      simp [runUrls]
  | u :: us, wb, rows, hsd => by
    by_cases hu : itemBlog env u = []
    · have ih := runUrls_ok env hg us wb rows hsd
      have hbe : (itemBlog env u).isEmpty = true := by simp [hu]
      simp only [runUrls, processItem_skip env wb u hu, ih]
      simp [List.filter_cons, hbe]
    · have hstep := processItem_go env wb u rows hu hsd (fun lbl => hg u lbl)
      have ih := runUrls_ok env hg us
        { linkedin := wb.linkedin ++ VARIANTS.map (outRowOf env u),
          serp_debug := some (rows ++ [dbgRowOf env u]) }
        (rows ++ [dbgRowOf env u]) rfl
      have hbe : (itemBlog env u).isEmpty = false := by
        cases hx : itemBlog env u with
        | nil => exact absurd hx hu
        | cons a l => rfl
      simp only [runUrls, hstep, ih]
      simp [List.filter_cons, hbe, List.append_assoc]

/-- C1 counterexample: a run in which a generation call raises a failure
that is not a `ValueError` (which line 189 does not catch).  The fetch for
the first configured URL returns non-empty text, its DebugRecord is
appended — but the exception propagates and aborts the run mid-item, so
the final store holds the one debug row and ZERO `linkedin` data rows for
that item instead of the claimed three: the per-item
exactly-three-OutputRecords invariant fails on this run. -/
theorem main_aborts_on_generation_error :
    itemBlog cexEnv (BLOG_URLS.headD []) ≠ [] ∧
    main_run cexEnv =
      (some { linkedin := [linkedinHeader],
              serp_debug := some [[BLOG_URLS.headD [], ("[]").data, []]] },
       some (PyErr.otherError ("backend crash").data)) ∧
    (main_run cexEnv).1.map
      (fun wb => ((wb.linkedin.drop 1).length, (wb.serp_debug.getD []).length)) =
      some (0, 1) ∧
    ((0, 1) : Nat × Nat) ≠ (3, 1) := by
  refine ⟨by decide, by decide, by decide, by decide⟩

/-- C1 (amended): on every run over the configured URL list in which no
generation call raises an exception other than `ValueError` (such a
failure propagates and aborts the run mid-item, leaving that item's
DebugRecord with fewer than three OutputRecords), the initialized store
gains, relative to its prior contents, exactly one `serp_debug` row per
SourceItem whose fetch returned non-empty text and exactly three
`linkedin` rows (one per entry of the fixed three-element variant set)
per such SourceItem; a SourceItem whose fetch returned empty text
contributes zero rows of either kind and processing moves to the next
item, and the run finishes with no uncaught exception. -/
theorem main_row_counts_amended :
    ∀ (env : Env) (wb0 : Workbook) (rows0 : List (List Str)),
      init_excel env.store0 = some wb0 →
      wb0.serp_debug = some rows0 →
      env.llmOk = true →
      (∀ u lbl, isHardErr (env.gen u lbl) = false) →
      main_run env =
        (some { linkedin := wb0.linkedin ++
                  (BLOG_URLS.filter (fun u => !(itemBlog env u).isEmpty)).flatMap
                    (fun u => VARIANTS.map (outRowOf env u)),
                serp_debug := some (rows0 ++
                  (BLOG_URLS.filter (fun u => !(itemBlog env u).isEmpty)).map (dbgRowOf env)) },
         none) := by
  intro env wb0 rows0 hinit hsd h1 hg
  have hrun := runUrls_ok env hg BLOG_URLS wb0 rows0 hsd
  simp only [main_run, hinit, h1, Bool.not_true, Bool.false_eq_true, if_false, hrun]

/-- C1 witness: `main_row_counts_amended` at the concrete environment
`env0`, whose generation streams all end cleanly. -/
theorem main_row_counts_amended_witness :
    (∀ u lbl, isHardErr (env0.gen u lbl) = false) ∧
    main_run env0 =
      (some { linkedin := [linkedinHeader] ++
                (BLOG_URLS.filter (fun u => !(itemBlog env0 u).isEmpty)).flatMap
                  (fun u => VARIANTS.map (outRowOf env0 u)),
              serp_debug := some ([] ++
                (BLOG_URLS.filter (fun u => !(itemBlog env0 u).isEmpty)).map (dbgRowOf env0)) },
       none) :=
  ⟨fun _ _ => rfl,
   main_row_counts_amended env0 { linkedin := [linkedinHeader], serp_debug := some [] } []
     rfl rfl rfl (fun _ _ => rfl)⟩
